import Mathlib

/-!
Shallow embedding of the PAN banking system core (oodb/bank_account.py,
oodb/database.py, oodb/citizen.py).

Python floats are modelled as rationals (ℚ); strings as Lean `String`;
Python's in-place mutation plus exceptions is modelled by state passing:
every mutating operation returns the post-call state paired with an
`Except` outcome, so mutations performed before a raise are visible in the
returned state, exactly as they are on the live Python object.
Nondeterministic fields (uuid transaction ids, wall-clock timestamps) are
omitted; `datetime.now() < maturity_date` in `FixedDepositAccount.withdraw`
is passed in as the boolean `beforeMaturity`.
-/

/-- Error kinds raised by the account model (Python raises `ValueError`
with distinct messages; the spec's taxonomy distinguishes them). -/
inductive AccountError where
  | invalidAmount
  | insufficientFunds
  | minimumBalanceViolation
  | overdraftExceeded
  deriving DecidableEq, Repr

/-- Error kinds raised by the persistence layer. -/
inductive DbError where
  | invalidFormat
  | duplicateKey
  | unknownReference
  | corruptStore
  deriving DecidableEq, Repr

/-- Ledger entry, from `Transaction.__init__` (bank_account.py lines 5-13);
`transaction_id` and `timestamp` are nondeterministic and omitted. -/
structure Transaction where
  account_no : String
  amount : ℚ
  transaction_type : String
  description : String
  status : String
  deriving DecidableEq, Repr

/-- Embeds `Transaction(account_no, amount, transaction_type, description)`:
status is initialised to "completed". -/
def mkTransaction (no : String) (amt : ℚ) (ty : String) (d : String) : Transaction :=
  ⟨no, amt, ty, d, "completed"⟩

/-- Mutable state of `BankAccount` (bank_account.py lines 33-41); fields
`account_type`, `open_date`, `status` are constants or timestamps and play
no role in the claims' operations. -/
structure BankAccount where
  account_no : String
  pan_number : String
  balance : ℚ
  branch_name : String
  transactions : List Transaction
  deriving DecidableEq, Repr

/-- Embeds `BankAccount.withdraw` (lines 53-64). -/
def BankAccount.withdraw (a : BankAccount) (amount : ℚ) (description : String) :
    BankAccount × Except AccountError Transaction :=
  if amount ≤ 0 then (a, .error .invalidAmount)
  else if amount > a.balance then (a, .error .insufficientFunds)
  else
    let t := mkTransaction a.account_no amount "withdrawal" description
    ({ a with balance := a.balance - amount, transactions := a.transactions ++ [t] }, .ok t)

/-- Embeds `BankAccount.deposit` (lines 43-51). -/
def BankAccount.deposit (a : BankAccount) (amount : ℚ) (description : String) :
    BankAccount × Except AccountError Transaction :=
  if amount ≤ 0 then (a, .error .invalidAmount)
  else
    let t := mkTransaction a.account_no amount "deposit" description
    ({ a with balance := a.balance + amount, transactions := a.transactions ++ [t] }, .ok t)

/-- State of `SavingsAccount` (lines 89-93). -/
structure SavingsAccount extends BankAccount where
  interest_rate : ℚ
  min_balance : ℚ
  deriving DecidableEq, Repr

/-- Embeds `SavingsAccount.__init__`: `min_balance` is hard-coded to 1000. -/
def mkSavingsAccount (no pan : String) (balance : ℚ) (branch : String) (rate : ℚ) :
    SavingsAccount :=
  { account_no := no, pan_number := pan, balance := balance, branch_name := branch,
    transactions := [], interest_rate := rate, min_balance := 1000 }

/-- Embeds `SavingsAccount.withdraw` (lines 99-103). -/
def SavingsAccount.withdraw (a : SavingsAccount) (amount : ℚ) (description : String) :
    SavingsAccount × Except AccountError Transaction :=
  if a.balance - amount < a.min_balance then (a, .error .minimumBalanceViolation)
  else
    let (b, r) := a.toBankAccount.withdraw amount description
    ({ a with toBankAccount := b }, r)

/-- State of `CurrentAccount` (lines 117-121). -/
structure CurrentAccount extends BankAccount where
  overdraft_limit : ℚ
  overdraft_fee : ℚ
  deriving DecidableEq, Repr

/-- Embeds `CurrentAccount.__init__`: `overdraft_fee` is hard-coded to 100. -/
def mkCurrentAccount (no pan : String) (balance : ℚ) (branch : String) (limit : ℚ) :
    CurrentAccount :=
  { account_no := no, pan_number := pan, balance := balance, branch_name := branch,
    transactions := [], overdraft_limit := limit, overdraft_fee := 100 }

/-- The fee ledger entry built at bank_account.py lines 139-144. -/
def CurrentAccount.overdraftFeeTx (a : CurrentAccount) : Transaction :=
  mkTransaction a.account_no a.overdraft_fee "fee" "Overdraft fee"

/-- Lines 145-146: append the fee transaction, then debit the fee. -/
def CurrentAccount.applyOverdraftFee (a : CurrentAccount) : CurrentAccount :=
  { a with transactions := a.transactions ++ [a.overdraftFeeTx],
           balance := a.balance - a.overdraft_fee }

/-- Lines 148-151: debit the principal and append the withdrawal transaction. -/
def CurrentAccount.applyPrincipal (a : CurrentAccount) (amount : ℚ) (d : String) :
    CurrentAccount × Transaction :=
  let t := mkTransaction a.account_no amount "withdrawal" d
  ({ a with balance := a.balance - amount, transactions := a.transactions ++ [t] }, t)

/-- Embeds `CurrentAccount.withdraw` (lines 127-151). -/
def CurrentAccount.withdraw (a : CurrentAccount) (amount : ℚ) (description : String) :
    CurrentAccount × Except AccountError Transaction :=
  if amount ≤ 0 then (a, .error .invalidAmount)
  else if amount > a.balance + a.overdraft_limit then (a, .error .overdraftExceeded)
  else if amount > a.balance then
    let (a2, t) := a.applyOverdraftFee.applyPrincipal amount (description ++ " (with overdraft)")
    (a2, .ok t)
  else
    let (a2, t) := a.applyPrincipal amount description
    (a2, .ok t)

/-- State of `FixedDepositAccount` (lines 165-171); `maturity_date` is a
wall-clock value, so the comparison at line 188 enters `withdraw` as a
boolean parameter. -/
structure FixedDepositAccount extends BankAccount where
  term_months : ℕ
  interest_rate : ℚ
  early_withdrawal_penalty : ℚ
  deriving DecidableEq, Repr

/-- Embeds `FixedDepositAccount.__init__`: penalty percent hard-coded to 1. -/
def mkFixedDepositAccount (no pan : String) (balance : ℚ) (branch : String)
    (term : ℕ) (rate : ℚ) : FixedDepositAccount :=
  { account_no := no, pan_number := pan, balance := balance, branch_name := branch,
    transactions := [], term_months := term, interest_rate := rate,
    early_withdrawal_penalty := 1 }

/-- The penalty ledger entry built at bank_account.py lines 193-198. -/
def FixedDepositAccount.penaltyTx (a : FixedDepositAccount) (amount : ℚ) : Transaction :=
  mkTransaction a.account_no (amount * (a.early_withdrawal_penalty / 100)) "fee"
    "Early withdrawal penalty"

/-- Lines 199-200: append the penalty transaction, then debit the penalty. -/
def FixedDepositAccount.applyPenalty (a : FixedDepositAccount) (amount : ℚ) :
    FixedDepositAccount :=
  { a with transactions := a.transactions ++ [a.penaltyTx amount],
           balance := a.balance - amount * (a.early_withdrawal_penalty / 100) }

/-- Embeds `FixedDepositAccount.withdraw` (lines 186-202); `beforeMaturity`
stands for `datetime.now().isoformat() < self.maturity_date`. -/
def FixedDepositAccount.withdraw (a : FixedDepositAccount) (beforeMaturity : Bool)
    (amount : ℚ) (description : String) :
    FixedDepositAccount × Except AccountError Transaction :=
  if beforeMaturity then
    let a1 := a.applyPenalty amount
    let d1 := description ++ " (Early withdrawal penalty: " ++
      toString (amount * (a.early_withdrawal_penalty / 100)) ++ ")"
    let (b, r) := a1.toBankAccount.withdraw amount d1
    ({ a1 with toBankAccount := b }, r)
  else
    let (b, r) := a.toBankAccount.withdraw amount description
    ({ a with toBankAccount := b }, r)

/-- Embeds `validate_pan` (database.py lines 20-29); Python's `isalpha` /
`isdigit` are modelled by `Char.isAlpha` / `Char.isDigit`, and the
falsiness test `not pan_number` by `length = 0`. -/
def validate_pan (pan : String) : Bool :=
  if pan.length = 0 ∨ pan.length ≠ 10 then false
  else if !((pan.toList.take 5).all Char.isAlpha &&
            ((pan.toList.drop 5).take 4).all Char.isDigit &&
            ((pan.toList.drop 9).take 1).all Char.isAlpha) then false
  else true

/-- Embeds `validate_account_number` (lines 31-35); Python's `isalnum` on a
string is true iff it is nonempty and every character is alphanumeric. -/
def validate_account_number (no : String) : Bool :=
  if no.length = 0 ∨ no.length < 8 then false
  else no.toList.all Char.isAlphanum

/-- Stored citizen record, from `Citizen.to_dict` (citizen.py). -/
structure CitizenRec where
  pan_number : String
  name : String
  dob : String
  address : String
  deriving DecidableEq, Repr

/-- Stored account record: the fields of `BankAccount.to_dict` used by the
persistence layer's checks and by the claims. -/
structure AccountRec where
  account_no : String
  pan_number : String
  balance : ℚ
  deriving DecidableEq, Repr

/-- Stored transaction record. -/
structure TransactionRec where
  account_no : String
  amount : ℚ
  transaction_type : String
  deriving DecidableEq, Repr

/-- The in-memory snapshot of the durable JSON file: three collections. -/
structure Database where
  citizens : List CitizenRec
  accounts : List AccountRec
  transactions : List TransactionRec
  deriving DecidableEq, Repr

/-- Serialisation of a `SavingsAccount` into its stored record, from
`SavingsAccount.to_dict` (projected to the fields of `AccountRec`). -/
def SavingsAccount.toRec (a : SavingsAccount) : AccountRec :=
  ⟨a.account_no, a.pan_number, a.balance⟩

/-- State of the durable file as seen by `load_database`: absent,
present but not valid JSON, or parsed with each top-level collection
possibly missing. -/
inductive FileState where
  | absent
  | unparseable
  | parsed (citizens : Option (List CitizenRec)) (accounts : Option (List AccountRec))
      (transactions : Option (List TransactionRec))
  deriving DecidableEq, Repr

/-- Embeds `load_database` (database.py lines 56-76): missing file yields
the empty snapshot, a JSON decode error raises `DatabaseError` (modelled
as `corruptStore`), and missing keys are filled with empty lists. -/
def load_database : FileState → Except DbError Database
  | .absent => .ok ⟨[], [], []⟩
  | .unparseable => .error .corruptStore
  | .parsed c a t => .ok ⟨c.getD [], a.getD [], t.getD []⟩

/-- Embeds `find_citizen_by_pan` (lines 148-158) on a loaded snapshot. -/
def find_citizen_by_pan (db : Database) (pan : String) : Option CitizenRec :=
  db.citizens.find? (fun c => c.pan_number == pan)

/-- Embeds `find_account_by_number` (lines 160-170) on a loaded snapshot. -/
def find_account_by_number (db : Database) (no : String) : Option AccountRec :=
  db.accounts.find? (fun a => a.account_no == no)

/-- Embeds `add_account` (lines 120-146). The durable store is passed in
and returned: on any raised error the function returns the store
untouched, because the Python code raises before `save_database`. -/
def add_account (db : Database) (account : AccountRec) :
    Database × Except DbError Unit :=
  if !(validate_account_number account.account_no) then (db, .error .invalidFormat)
  else if (find_account_by_number db account.account_no).isSome then
    (db, .error .duplicateKey)
  else if !(find_citizen_by_pan db account.pan_number).isSome then
    (db, .error .unknownReference)
  else ({ db with accounts := db.accounts ++ [account] }, .ok ())

/-- Embeds `delete_citizen` (lines 208-223): filter citizens by PAN, save
only when something was removed, report whether a record was removed. -/
def delete_citizen (db : Database) (pan : String) : Database × Bool :=
  let remaining := db.citizens.filter (fun c => c.pan_number != pan)
  if remaining.length < db.citizens.length then
    ({ db with citizens := remaining }, true)
  else (db, false)

/-- Modelled from the spec (section 3 and section 8): the PAN shape the spec
describes — exactly 10 characters, positions 0-4 alphabetic, positions 5-8
numeric, position 9 alphabetic — stated positionally, to be compared with
the source's `validate_pan`. -/
def panShape (s : String) : Prop :=
  s.length = 10 ∧
  (∀ i, i < 5 → ((s.toList.getD i ' ').isAlpha = true)) ∧
  (∀ i, 5 ≤ i → i < 9 → ((s.toList.getD i ' ').isDigit = true)) ∧
  ((s.toList.getD 9 ' ').isAlpha = true)

/-- A store that already holds two account records under the same key
(nothing in `load_database` or the record types rules such a file out). -/
def dupStore : Database :=
  ⟨[⟨"ABCDE1234F", "Asha", "1990-01-01", "Delhi"⟩],
   [⟨"ACCT0001", "ABCDE1234F", 0⟩, ⟨"ACCT0001", "ABCDE1234F", 0⟩], []⟩

/-- A store holding an account record whose key is not a well-formed
account number. -/
def badDupStore : Database :=
  ⟨[⟨"ABCDE1234F", "Asha", "1990-01-01", "Delhi"⟩],
   [⟨"ab", "ABCDE1234F", 0⟩], []⟩

/-- A store with one citizen and one well-formed account record. -/
def oneStore : Database :=
  ⟨[⟨"ABCDE1234F", "Asha", "1990-01-01", "Delhi"⟩],
   [⟨"ACCT0001", "ABCDE1234F", 1000⟩], []⟩

/-- A store with one account record but no citizens at all. -/
def orphanStore : Database :=
  ⟨[], [⟨"ACCT0001", "ABCDE1234F", 0⟩], []⟩

/-- C1 counterexample: the claimed invariant fails. A Current account with
balance 500 and overdraft limit 200 withdrawing 700 succeeds (700 equals
balance plus limit), but the 100 overdraft fee is debited on top, leaving
balance -300, which is strictly below minus the overdraft limit. -/
theorem C1_counterexample :
    ((mkCurrentAccount "CURR0001" "ABCDE1234F" 500 "Main" 200).withdraw 700 "Withdrawal").2 =
      .ok (mkTransaction "CURR0001" 700 "withdrawal" "Withdrawal (with overdraft)") ∧
    ((mkCurrentAccount "CURR0001" "ABCDE1234F" 500 "Main" 200).withdraw 700 "Withdrawal").1.balance = -300 ∧
    ¬ (-300 : ℚ) ≥ -(mkCurrentAccount "CURR0001" "ABCDE1234F" 500 "Main" 200).overdraft_limit := by
  refine ⟨?_, ?_, ?_⟩
  · norm_num [mkCurrentAccount, CurrentAccount.withdraw, CurrentAccount.applyOverdraftFee,
      CurrentAccount.applyPrincipal, CurrentAccount.overdraftFeeTx]
    rfl
  · norm_num [mkCurrentAccount, CurrentAccount.withdraw, CurrentAccount.applyOverdraftFee,
      CurrentAccount.applyPrincipal, CurrentAccount.overdraftFeeTx]
  · norm_num [mkCurrentAccount]

/-- C1 amended: for every Current account with a nonnegative overdraft fee,
every withdrawal that succeeds leaves the balance at or above minus the sum
of the overdraft limit and the overdraft fee (the fee, charged once when
the withdrawal dips into overdraft, is the exact slack the original bound
is missing). -/
theorem C1_amended (a : CurrentAccount) (amount : ℚ) (d : String)
    (hf : 0 ≤ a.overdraft_fee)
    (a2 : CurrentAccount) (t : Transaction)
    (hok : a.withdraw amount d = (a2, .ok t)) :
    -(a.overdraft_limit + a.overdraft_fee) ≤ a2.balance := by
  unfold CurrentAccount.withdraw at hok
  split_ifs at hok with h1 h2 h3
  · simp at hok
  · simp at hok
  · simp [CurrentAccount.applyPrincipal, CurrentAccount.applyOverdraftFee, Prod.ext_iff] at hok
    obtain ⟨rfl, -⟩ := hok
    simp
    push_neg at h2
    linarith
  · simp [CurrentAccount.applyPrincipal, Prod.ext_iff] at hok
    obtain ⟨rfl, -⟩ := hok
    simp
    push_neg at h1 h3
    linarith

/-- C1 witness: the amended bound at the concrete overdraft withdrawal of
700 from balance 500 with limit 200 and fee 100: the final balance -300
meets the amended bound -(200 + 100). -/
theorem C1_amended_witness :
    (0:ℚ) ≤ (mkCurrentAccount "CURR0001" "ABCDE1234F" 500 "Main" 200).overdraft_fee ∧
    (-300 : ℚ) ≤ ((mkCurrentAccount "CURR0001" "ABCDE1234F" 500 "Main" 200).withdraw 700 "Withdrawal").1.balance := by
  have hpair : (mkCurrentAccount "CURR0001" "ABCDE1234F" 500 "Main" 200).withdraw 700 "Withdrawal" =
      (((mkCurrentAccount "CURR0001" "ABCDE1234F" 500 "Main" 200).withdraw 700 "Withdrawal").1,
        .ok (mkTransaction "CURR0001" 700 "withdrawal" ("Withdrawal" ++ " (with overdraft)"))) := by
    norm_num [mkCurrentAccount, CurrentAccount.withdraw, CurrentAccount.applyOverdraftFee,
      CurrentAccount.applyPrincipal, CurrentAccount.overdraftFeeTx]
  have h := C1_amended (mkCurrentAccount "CURR0001" "ABCDE1234F" 500 "Main" 200) 700 "Withdrawal"
    (by norm_num [mkCurrentAccount]) _ _ hpair
  refine ⟨by norm_num [mkCurrentAccount], ?_⟩
  have hlim : (mkCurrentAccount "CURR0001" "ABCDE1234F" 500 "Main" 200).overdraft_limit = 200 := by
    norm_num [mkCurrentAccount]
  have hfee : (mkCurrentAccount "CURR0001" "ABCDE1234F" 500 "Main" 200).overdraft_fee = 100 := by
    norm_num [mkCurrentAccount]
  rw [hlim, hfee] at h
  linarith

/-- C2 counterexample: a FixedDeposit account with balance 100, before
maturity, asked to withdraw 200: the call is rejected with insufficient
funds, yet the returned state shows the 1 percent penalty already debited
(balance 98) and the penalty transaction already appended, so the rejected
operation did mutate the account. -/
theorem C2_counterexample :
    ((mkFixedDepositAccount "FDAC0001" "ABCDE1234F" 100 "Main" 12 (13/2)).withdraw true 200 "Withdrawal").2 =
      .error .insufficientFunds ∧
    ((mkFixedDepositAccount "FDAC0001" "ABCDE1234F" 100 "Main" 12 (13/2)).withdraw true 200 "Withdrawal").1.balance = 98 ∧
    ((mkFixedDepositAccount "FDAC0001" "ABCDE1234F" 100 "Main" 12 (13/2)).withdraw true 200 "Withdrawal").1.transactions =
      [mkTransaction "FDAC0001" 2 "fee" "Early withdrawal penalty"] ∧
    (mkFixedDepositAccount "FDAC0001" "ABCDE1234F" 100 "Main" 12 (13/2)).balance = 100 ∧
    (mkFixedDepositAccount "FDAC0001" "ABCDE1234F" 100 "Main" 12 (13/2)).transactions = [] := by
  refine ⟨?_, ?_, ?_, ?_, ?_⟩ <;>
    norm_num [mkFixedDepositAccount, FixedDepositAccount.withdraw, FixedDepositAccount.applyPenalty,
      FixedDepositAccount.penaltyTx, BankAccount.withdraw, mkTransaction]

/-- C2 amended: a rejected withdraw leaves balance and transactions exactly
as before for the base account, Savings, Current, and FixedDeposit at or
after maturity; but a FixedDeposit early withdrawal rejected because the
amount exceeds the penalty-reduced balance keeps the penalty debit and the
penalty transaction (the one case the original claim singled out is
exactly the case where it fails). -/
theorem C2_amended :
    (∀ (a : BankAccount) (amount : ℚ) (d : String) (e : AccountError),
        (a.withdraw amount d).2 = .error e → (a.withdraw amount d).1 = a) ∧
    (∀ (a : SavingsAccount) (amount : ℚ) (d : String) (e : AccountError),
        (a.withdraw amount d).2 = .error e → (a.withdraw amount d).1 = a) ∧
    (∀ (a : CurrentAccount) (amount : ℚ) (d : String) (e : AccountError),
        (a.withdraw amount d).2 = .error e → (a.withdraw amount d).1 = a) ∧
    (∀ (a : FixedDepositAccount) (amount : ℚ) (d : String) (e : AccountError),
        (a.withdraw false amount d).2 = .error e → (a.withdraw false amount d).1 = a) ∧
    (∀ (a : FixedDepositAccount) (amount : ℚ) (d : String), 0 < amount →
        a.balance - amount * (a.early_withdrawal_penalty / 100) < amount →
        (a.withdraw true amount d).1 = a.applyPenalty amount ∧
        (a.withdraw true amount d).2 = .error .insufficientFunds) := by
  have hbase : ∀ (a : BankAccount) (amount : ℚ) (d : String) (e : AccountError),
      (a.withdraw amount d).2 = .error e → (a.withdraw amount d).1 = a := by
    intro a amount d e h
    unfold BankAccount.withdraw at h ⊢
    split_ifs at h ⊢ <;> simp_all
  refine ⟨hbase, ?_, ?_, ?_, ?_⟩
  · intro a amount d e h
    unfold SavingsAccount.withdraw at h ⊢
    split_ifs at h ⊢ with h1
    · rfl
    · cases hw : a.toBankAccount.withdraw amount d with
      | mk b r =>
        simp only [hw] at h ⊢
        have hb := hbase a.toBankAccount amount d e (by rw [hw]; exact h)
        rw [hw] at hb
        simp only at hb
        simp [hb]
  · intro a amount d e h
    unfold CurrentAccount.withdraw at h ⊢
    split_ifs at h ⊢ <;>
      simp_all [CurrentAccount.applyPrincipal]
  · intro a amount d e h
    unfold FixedDepositAccount.withdraw at h ⊢
    simp only [Bool.false_eq_true, if_false] at h ⊢
    cases hw : a.toBankAccount.withdraw amount d with
    | mk b r =>
      simp only [hw] at h ⊢
      have hb := hbase a.toBankAccount amount d e (by rw [hw]; exact h)
      rw [hw] at hb
      simp only at hb
      simp [hb]
  · intro a amount d hpos hins
    unfold FixedDepositAccount.withdraw
    rw [if_pos rfl]
    have hbal : (a.applyPenalty amount).balance =
        a.balance - amount * (a.early_withdrawal_penalty / 100) := by
      simp [FixedDepositAccount.applyPenalty]
    have hw : (a.applyPenalty amount).toBankAccount.withdraw amount
        (d ++ " (Early withdrawal penalty: " ++
          toString (amount * (a.early_withdrawal_penalty / 100)) ++ ")") =
        ((a.applyPenalty amount).toBankAccount, .error .insufficientFunds) := by
      unfold BankAccount.withdraw
      rw [if_neg (not_le.mpr hpos), if_pos]
      show (a.applyPenalty amount).toBankAccount.balance < amount
      calc (a.applyPenalty amount).toBankAccount.balance
          = (a.applyPenalty amount).balance := rfl
        _ < amount := by rw [hbal]; exact hins
    simp [hw]

/-- C2 witness: the no-mutation part of the amended claim at a concrete
rejected Savings withdrawal (balance 1000, minimum balance 1000,
withdrawing 1): the account is returned unchanged. -/
theorem C2_amended_witness :
    ((mkSavingsAccount "SAVE0001" "ABCDE1234F" 1000 "Main" (7/2)).withdraw 1 "Withdrawal").1 =
      mkSavingsAccount "SAVE0001" "ABCDE1234F" 1000 "Main" (7/2) := by
  refine C2_amended.2.1 _ 1 "Withdrawal" .minimumBalanceViolation ?_
  norm_num [mkSavingsAccount, SavingsAccount.withdraw]

/-- C3: fee and penalty entries precede the principal entry. For every
successful Current withdrawal that dips into overdraft, the withdraw call
equals the fee step (append fee transaction, debit fee) followed by the
principal step, so the final ledger is the old one extended with the fee
entry strictly before the withdrawal entry and the fee debit lands before
the principal debit; likewise every successful FixedDeposit withdrawal
before maturity appends the penalty entry and applies its debit strictly
before the principal withdrawal entry and debit. -/
theorem C3_fee_before_principal :
    (∀ (a : CurrentAccount) (amount : ℚ) (d : String),
        0 < amount → a.balance < amount → amount ≤ a.balance + a.overdraft_limit →
        a.withdraw amount d =
          ((a.applyOverdraftFee.applyPrincipal amount (d ++ " (with overdraft)")).1,
            .ok (a.applyOverdraftFee.applyPrincipal amount (d ++ " (with overdraft)")).2) ∧
        a.applyOverdraftFee.balance = a.balance - a.overdraft_fee ∧
        a.applyOverdraftFee.transactions = a.transactions ++ [a.overdraftFeeTx] ∧
        (a.withdraw amount d).1.transactions =
          a.transactions ++ [a.overdraftFeeTx,
            mkTransaction a.account_no amount "withdrawal" (d ++ " (with overdraft)")] ∧
        (a.withdraw amount d).1.balance = a.balance - a.overdraft_fee - amount) ∧
    (∀ (a : FixedDepositAccount) (amount : ℚ) (d : String), 0 < amount →
        amount ≤ a.balance - amount * (a.early_withdrawal_penalty / 100) →
        (∃ t, (a.withdraw true amount d).2 = .ok t ∧ t.transaction_type = "withdrawal" ∧
          (a.withdraw true amount d).1.transactions =
            a.transactions ++ [a.penaltyTx amount, t]) ∧
        (a.applyPenalty amount).balance = a.balance - amount * (a.early_withdrawal_penalty / 100) ∧
        (a.applyPenalty amount).transactions = a.transactions ++ [a.penaltyTx amount] ∧
        (a.withdraw true amount d).1.balance =
          a.balance - amount * (a.early_withdrawal_penalty / 100) - amount) := by
  constructor
  · intro a amount d h0 hov hle
    have hnle : ¬ amount ≤ 0 := not_le.mpr h0
    have hnov : ¬ amount > a.balance + a.overdraft_limit := not_lt.mpr hle
    unfold CurrentAccount.withdraw
    rw [if_neg hnle, if_neg hnov, if_pos hov]
    refine ⟨rfl, rfl, rfl, ?_, ?_⟩ <;>
      simp [CurrentAccount.applyPrincipal, CurrentAccount.applyOverdraftFee]
  · intro a amount d h0 hok
    have hnle : ¬ amount ≤ 0 := not_le.mpr h0
    have hbal : (a.applyPenalty amount).balance =
        a.balance - amount * (a.early_withdrawal_penalty / 100) := by
      simp [FixedDepositAccount.applyPenalty]
    have hw : (a.applyPenalty amount).toBankAccount.withdraw amount
        (d ++ " (Early withdrawal penalty: " ++
          toString (amount * (a.early_withdrawal_penalty / 100)) ++ ")") =
        ({ (a.applyPenalty amount).toBankAccount with
            balance := (a.applyPenalty amount).balance - amount,
            transactions := (a.applyPenalty amount).transactions ++
              [mkTransaction a.account_no amount "withdrawal"
                (d ++ " (Early withdrawal penalty: " ++
                  toString (amount * (a.early_withdrawal_penalty / 100)) ++ ")")] },
          .ok (mkTransaction a.account_no amount "withdrawal"
            (d ++ " (Early withdrawal penalty: " ++
              toString (amount * (a.early_withdrawal_penalty / 100)) ++ ")"))) := by
      unfold BankAccount.withdraw
      rw [if_neg hnle, if_neg]
      · rfl
      · push_neg
        calc amount ≤ a.balance - amount * (a.early_withdrawal_penalty / 100) := hok
          _ = (a.applyPenalty amount).toBankAccount.balance := by rw [← hbal]
    unfold FixedDepositAccount.withdraw
    rw [if_pos rfl]
    simp only [hw]
    refine ⟨⟨mkTransaction a.account_no amount "withdrawal"
        (d ++ " (Early withdrawal penalty: " ++
          toString (amount * (a.early_withdrawal_penalty / 100)) ++ ")"), rfl, rfl, ?_⟩,
      hbal, rfl, ?_⟩
    · simp [FixedDepositAccount.applyPenalty]
    · simp [FixedDepositAccount.applyPenalty]

/-- C3 witness: the spec's own example (Current balance 500, limit 200,
withdrawing 600) produces a fee entry immediately before the withdrawal
entry and balance -200; a FixedDeposit of 1000 withdrawing 100 before
maturity ends at 899 (penalty 1 debited before the principal 100). -/
theorem C3_witness :
    ((mkCurrentAccount "CURR0001" "ABCDE1234F" 500 "Main" 200).withdraw 600 "Withdrawal").1.transactions =
      [mkTransaction "CURR0001" 100 "fee" "Overdraft fee",
       mkTransaction "CURR0001" 600 "withdrawal" ("Withdrawal" ++ " (with overdraft)")] ∧
    ((mkCurrentAccount "CURR0001" "ABCDE1234F" 500 "Main" 200).withdraw 600 "Withdrawal").1.balance = -200 ∧
    ((mkFixedDepositAccount "FDAC0001" "ABCDE1234F" 1000 "Main" 12 (13/2)).withdraw true 100 "Withdrawal").1.balance = 899 := by
  have h1 := C3_fee_before_principal.1 (mkCurrentAccount "CURR0001" "ABCDE1234F" 500 "Main" 200)
    600 "Withdrawal" (by norm_num) (by norm_num [mkCurrentAccount]) (by norm_num [mkCurrentAccount])
  have h2 := C3_fee_before_principal.2 (mkFixedDepositAccount "FDAC0001" "ABCDE1234F" 1000 "Main" 12 (13/2))
    100 "Withdrawal" (by norm_num) (by norm_num [mkFixedDepositAccount])
  refine ⟨?_, ?_, ?_⟩
  · rw [h1.2.2.2.1]
    norm_num [mkCurrentAccount, CurrentAccount.overdraftFeeTx]
  · rw [h1.2.2.2.2]
    norm_num [mkCurrentAccount]
  · rw [h2.2.2.2]
    norm_num [mkFixedDepositAccount]

/-- C4 counterexample: the claim quantifies over every store state, but a
store can already hold two records under one key, and a rejected
add_account leaves both (afterwards the store holds two records with that
account_number, not exactly one); moreover, when the existing key is not a
well-formed account number, add_account fails with the format error, not
the duplicate-key error, because the format check runs first. -/
theorem C4_counterexample :
    (add_account dupStore ⟨"ACCT0001", "ABCDE1234F", 0⟩).2 = .error .duplicateKey ∧
    (add_account dupStore ⟨"ACCT0001", "ABCDE1234F", 0⟩).1 = dupStore ∧
    ((add_account dupStore ⟨"ACCT0001", "ABCDE1234F", 0⟩).1.accounts.filter
        (fun r => r.account_no == "ACCT0001")).length = 2 ∧
    (find_account_by_number badDupStore "ab").isSome = true ∧
    (add_account badDupStore ⟨"ab", "ABCDE1234F", 0⟩).2 = .error .invalidFormat ∧
    DbError.invalidFormat ≠ DbError.duplicateKey :=
  ⟨rfl, rfl, rfl, rfl, rfl, by decide⟩

/-- C4 amended: for every store state and every account whose
account_number is well-formed and already present, add_account fails with
the duplicate-key error and returns the store unchanged; hence the number
of records stored under that account_number is exactly what it was before
the call (exactly one whenever it was one before). -/
theorem C4_amended (db : Database) (acct : AccountRec)
    (hfmt : validate_account_number acct.account_no = true)
    (hdup : (find_account_by_number db acct.account_no).isSome = true) :
    add_account db acct = (db, .error .duplicateKey) ∧
    ((add_account db acct).1.accounts.filter
        (fun r => r.account_no == acct.account_no)).length =
      (db.accounts.filter (fun r => r.account_no == acct.account_no)).length := by
  have h : add_account db acct = (db, .error .duplicateKey) := by
    unfold add_account
    simp [hfmt, hdup]
  exact ⟨h, by rw [h]⟩

/-- C4 witness: adding a second account under the existing well-formed key
of a one-record store fails with the duplicate-key error and preserves the
record count for that key. -/
theorem C4_amended_witness :
    add_account oneStore ⟨"ACCT0001", "ABCDE1234F", 500⟩ = (oneStore, .error .duplicateKey) ∧
    ((add_account oneStore ⟨"ACCT0001", "ABCDE1234F", 500⟩).1.accounts.filter
        (fun r => r.account_no == (⟨"ACCT0001", "ABCDE1234F", (500:ℚ)⟩ : AccountRec).account_no)).length =
      (oneStore.accounts.filter
        (fun r => r.account_no == (⟨"ACCT0001", "ABCDE1234F", (500:ℚ)⟩ : AccountRec).account_no)).length :=
  C4_amended oneStore ⟨"ACCT0001", "ABCDE1234F", 500⟩ (by decide) (by decide)

/-- C5 counterexample: an account with an unregistered PAN but a malformed
account_number fails with the format error, and one whose account_number
already exists fails with the duplicate-key error — in both cases the PAN
is unknown yet the error is not the unknown-reference error, because
add_account checks format and uniqueness first. -/
theorem C5_counterexample :
    find_citizen_by_pan ⟨[], [], []⟩ "ZZZZZ9999Z" = none ∧
    (add_account ⟨[], [], []⟩ ⟨"ab", "ZZZZZ9999Z", 0⟩).2 = .error .invalidFormat ∧
    find_citizen_by_pan orphanStore "ZZZZZ9999Z" = none ∧
    (add_account orphanStore ⟨"ACCT0001", "ZZZZZ9999Z", 0⟩).2 = .error .duplicateKey ∧
    DbError.invalidFormat ≠ DbError.unknownReference ∧
    DbError.duplicateKey ≠ DbError.unknownReference :=
  ⟨rfl, rfl, rfl, rfl, by decide, by decide⟩

/-- C5 amended: whenever the account's PAN matches no stored citizen,
add_account never appends a record (the store comes back unchanged), and
it fails specifically with the unknown-reference error when the
account_number is well-formed and not already present. -/
theorem C5_amended (db : Database) (acct : AccountRec)
    (hciti : find_citizen_by_pan db acct.pan_number = none) :
    (add_account db acct).1 = db ∧
    (validate_account_number acct.account_no = true →
      find_account_by_number db acct.account_no = none →
      add_account db acct = (db, .error .unknownReference)) := by
  constructor
  · unfold add_account
    split_ifs <;> simp_all
  · intro hfmt hfresh
    unfold add_account
    simp [hfmt, hfresh, hciti]

/-- C5 witness: adding a well-formed, fresh account against an empty
citizen registry fails with the unknown-reference error and leaves the
store unchanged. -/
theorem C5_amended_witness :
    (add_account ⟨[], [], []⟩ ⟨"ACCT0002", "ZZZZZ9999Z", 0⟩).1 = (⟨[], [], []⟩ : Database) ∧
    add_account ⟨[], [], []⟩ ⟨"ACCT0002", "ZZZZZ9999Z", 0⟩ =
      (⟨[], [], []⟩, .error .unknownReference) := by
  have h := C5_amended ⟨[], [], []⟩ ⟨"ACCT0002", "ZZZZZ9999Z", 0⟩ rfl
  exact ⟨h.1, h.2 (by decide) rfl⟩

/-- C6: load_database returns the empty snapshot when the durable file is
absent, fails with the corrupt-store error (never an empty snapshot) when
the file exists but cannot be parsed, and fills each missing collection of
a parseable file with the empty list instead of failing. -/
theorem C6_load_database :
    load_database .absent = .ok ⟨[], [], []⟩ ∧
    load_database .unparseable = .error .corruptStore ∧
    (∀ (c : Option (List CitizenRec)) (a : Option (List AccountRec))
        (t : Option (List TransactionRec)),
      load_database (.parsed c a t) = .ok ⟨c.getD [], a.getD [], t.getD []⟩) ∧
    (∀ a t, load_database (.parsed none a t) = .ok ⟨[], a.getD [], t.getD []⟩) ∧
    (∀ c t, load_database (.parsed c none t) = .ok ⟨c.getD [], [], t.getD []⟩) ∧
    (∀ c a, load_database (.parsed c a none) = .ok ⟨c.getD [], a.getD [], []⟩) :=
  ⟨rfl, rfl, fun _ _ _ => rfl, fun _ _ => rfl, fun _ _ => rfl, fun _ _ => rfl⟩

/-- Every ten-character list is a literal list of ten characters. -/
lemma char_list_len10 (cs : List Char) (h : cs.length = 10) :
    ∃ c0 c1 c2 c3 c4 c5 c6 c7 c8 c9,
      cs = [c0, c1, c2, c3, c4, c5, c6, c7, c8, c9] := by
  rcases cs with _ | ⟨c0, cs⟩; · simp at h
  rcases cs with _ | ⟨c1, cs⟩; · simp at h
  rcases cs with _ | ⟨c2, cs⟩; · simp at h
  rcases cs with _ | ⟨c3, cs⟩; · simp at h
  rcases cs with _ | ⟨c4, cs⟩; · simp at h
  rcases cs with _ | ⟨c5, cs⟩; · simp at h
  rcases cs with _ | ⟨c6, cs⟩; · simp at h
  rcases cs with _ | ⟨c7, cs⟩; · simp at h
  rcases cs with _ | ⟨c8, cs⟩; · simp at h
  rcases cs with _ | ⟨c9, cs⟩; · simp at h
  rcases cs with _ | ⟨c10, cs⟩
  · exact ⟨c0, c1, c2, c3, c4, c5, c6, c7, c8, c9, rfl⟩
  · simp at h

/-- C7: validate_pan accepts a string exactly when it has the shape the
spec describes: length 10, positions 0-4 alphabetic, positions 5-8
numeric, position 9 alphabetic; being a two-valued function, it rejects
every string outside this shape. -/
theorem C7_validate_pan_iff (s : String) : validate_pan s = true ↔ panShape s := by
  unfold validate_pan panShape
  by_cases hlen : s.length = 10
  · have h10 : s.toList.length = 10 := hlen
    obtain ⟨c0, c1, c2, c3, c4, c5, c6, c7, c8, c9, hcs⟩ := char_list_len10 s.toList h10
    have hcond : ¬(s.length = 0 ∨ s.length ≠ 10) := by simp [hlen]
    rw [if_neg hcond, hcs]
    have htake : ([c0, c1, c2, c3, c4, c5, c6, c7, c8, c9].take 5) = [c0, c1, c2, c3, c4] := rfl
    have hdrop : (([c0, c1, c2, c3, c4, c5, c6, c7, c8, c9].drop 5).take 4) =
      [c5, c6, c7, c8] := rfl
    have hlast : (([c0, c1, c2, c3, c4, c5, c6, c7, c8, c9].drop 9).take 1) = [c9] := rfl
    rw [htake, hdrop, hlast]
    have hite : ∀ b : Bool, (if !b then false else true) = b := by decide
    rw [hite]
    constructor
    · intro hall
      simp only [List.all_cons, List.all_nil, Bool.and_true, Bool.and_eq_true] at hall
      obtain ⟨⟨⟨h0, h1, h2, h3, h4⟩, ⟨h5, h6, h7, h8⟩⟩, h9⟩ := hall
      refine ⟨hlen, ?_, ?_, ?_⟩
      · intro i hi
        interval_cases i
        · exact h0
        · exact h1
        · exact h2
        · exact h3
        · exact h4
      · intro i hi5 hi9
        interval_cases i
        · exact h5
        · exact h6
        · exact h7
        · exact h8
      · exact h9
    · rintro ⟨-, hP1, hP2, hP3⟩
      simp only [List.all_cons, List.all_nil, Bool.and_true, Bool.and_eq_true]
      refine ⟨⟨⟨?_, ?_, ?_, ?_, ?_⟩, ⟨?_, ?_, ?_, ?_⟩⟩, ?_⟩
      · exact hP1 0 (by norm_num)
      · exact hP1 1 (by norm_num)
      · exact hP1 2 (by norm_num)
      · exact hP1 3 (by norm_num)
      · exact hP1 4 (by norm_num)
      · exact hP2 5 (by norm_num) (by norm_num)
      · exact hP2 6 (by norm_num) (by norm_num)
      · exact hP2 7 (by norm_num) (by norm_num)
      · exact hP2 8 (by norm_num) (by norm_num)
      · exact hP3
  · constructor
    · intro hv
      rw [if_pos (Or.inr hlen)] at hv
      exact absurd hv (by simp)
    · rintro ⟨h, -⟩
      exact absurd h hlen

/-- C8: a Savings withdrawal is rejected with the minimum-balance error
whenever balance minus amount falls below min_balance; in particular a
freshly constructed Savings account with balance 1000 (whose min_balance
is the hard-coded 1000) rejects every positive withdrawal. -/
theorem C8_savings_min_balance :
    (∀ (a : SavingsAccount) (amount : ℚ) (d : String),
        a.balance - amount < a.min_balance →
        a.withdraw amount d = (a, .error .minimumBalanceViolation)) ∧
    (∀ (no pan branch : String) (rate amount : ℚ) (d : String), 0 < amount →
        (mkSavingsAccount no pan 1000 branch rate).withdraw amount d =
          (mkSavingsAccount no pan 1000 branch rate, .error .minimumBalanceViolation)) := by
  have h1 : ∀ (a : SavingsAccount) (amount : ℚ) (d : String),
      a.balance - amount < a.min_balance →
      a.withdraw amount d = (a, .error .minimumBalanceViolation) := by
    intro a amount d h
    unfold SavingsAccount.withdraw
    rw [if_pos h]
  refine ⟨h1, ?_⟩
  intro no pan branch rate amount d hpos
  apply h1
  show (1000 : ℚ) - amount < 1000
  linarith

/-- C8 witness: the balance-1000 Savings account rejects the concrete
positive withdrawal of 1 with the minimum-balance error, unchanged. -/
theorem C8_witness :
    (0:ℚ) < 1 ∧
    (mkSavingsAccount "SAVE0001" "ABCDE1234F" 1000 "Main" (7/2)).withdraw 1 "Withdrawal" =
      (mkSavingsAccount "SAVE0001" "ABCDE1234F" 1000 "Main" (7/2), .error .minimumBalanceViolation) :=
  ⟨by norm_num, C8_savings_min_balance.2 "SAVE0001" "ABCDE1234F" "Main" (7/2) 1 "Withdrawal" (by norm_num)⟩

/-- C9: delete_citizen removes exactly the citizen records whose PAN
matches, leaves the accounts and transactions collections untouched, and
afterwards no citizen with that PAN can be found while every account
record — including any that referenced the deleted PAN — is still present
(a dangling reference; referential integrity is checked only at account
creation). -/
theorem C9_delete_citizen_frame (db : Database) (pan : String) :
    (delete_citizen db pan).1.accounts = db.accounts ∧
    (delete_citizen db pan).1.transactions = db.transactions ∧
    (delete_citizen db pan).1.citizens =
      db.citizens.filter (fun c => c.pan_number != pan) ∧
    find_citizen_by_pan (delete_citizen db pan).1 pan = none ∧
    (∀ r ∈ db.accounts, r ∈ (delete_citizen db pan).1.accounts) := by
  unfold delete_citizen
  by_cases h : (db.citizens.filter (fun c => c.pan_number != pan)).length < db.citizens.length
  · rw [if_pos h]
    refine ⟨rfl, rfl, rfl, ?_, fun r hr => hr⟩
    unfold find_citizen_by_pan
    rw [List.find?_eq_none]
    intro c hc
    rw [List.mem_filter] at hc
    simpa using hc.2
  · rw [if_neg h]
    have hlen : (db.citizens.filter (fun c => c.pan_number != pan)).length =
        db.citizens.length :=
      Nat.le_antisymm (List.length_filter_le _ _) (Nat.le_of_not_lt h)
    have hall : ∀ c ∈ db.citizens, (c.pan_number != pan) = true :=
      List.filter_length_eq_length.mp hlen
    refine ⟨rfl, rfl, (List.filter_eq_self.mpr hall).symm, ?_, fun r hr => hr⟩
    unfold find_citizen_by_pan
    rw [List.find?_eq_none]
    intro c hc
    simpa using hall c hc

/-- C9 witness: deleting the only citizen of a one-citizen, one-account
store keeps the account record (now dangling) and leaves no citizen with
that PAN findable. -/
theorem C9_witness :
    (delete_citizen oneStore "ABCDE1234F").1.accounts = oneStore.accounts ∧
    find_citizen_by_pan (delete_citizen oneStore "ABCDE1234F").1 "ABCDE1234F" = none ∧
    (⟨"ACCT0001", "ABCDE1234F", 1000⟩ : AccountRec) ∈
      (delete_citizen oneStore "ABCDE1234F").1.accounts := by
  have h := C9_delete_citizen_frame oneStore "ABCDE1234F"
  exact ⟨h.1, h.2.2.2.1, h.2.2.2.2 _ (by simp [oneStore])⟩

/-- C10: no balance validation exists at construction or persistence time:
for every balance — below the minimum or negative — the Savings
constructor yields an account holding exactly that balance (with
min_balance 1000), and add_account appends its record whenever the
account-number format, uniqueness, and citizen-reference checks pass; the
minimum-balance rule lives only in withdraw. -/
theorem C10_no_balance_validation (balance : ℚ) (no pan branch : String) (rate : ℚ)
    (db : Database)
    (hfmt : validate_account_number no = true)
    (hfresh : find_account_by_number db no = none)
    (hcit : (find_citizen_by_pan db pan).isSome = true) :
    (mkSavingsAccount no pan balance branch rate).balance = balance ∧
    (mkSavingsAccount no pan balance branch rate).min_balance = 1000 ∧
    add_account db (mkSavingsAccount no pan balance branch rate).toRec =
      ({ db with accounts :=
          db.accounts ++ [(mkSavingsAccount no pan balance branch rate).toRec] }, .ok ()) := by
  refine ⟨rfl, rfl, ?_⟩
  unfold add_account
  simp [SavingsAccount.toRec, mkSavingsAccount, hfmt, hfresh, hcit]

/-- C10 witness: a Savings account constructed with the negative balance
-500 (far below the 1000 minimum) is accepted and persisted by
add_account against a store whose checks all pass. -/
theorem C10_witness :
    (mkSavingsAccount "SAVE0001" "ABCDE1234F" (-500) "Main" (7/2)).balance = -500 ∧
    (mkSavingsAccount "SAVE0001" "ABCDE1234F" (-500) "Main" (7/2)).min_balance = 1000 ∧
    add_account oneStore (mkSavingsAccount "SAVE0001" "ABCDE1234F" (-500) "Main" (7/2)).toRec =
      ({ oneStore with accounts :=
          oneStore.accounts ++
            [(mkSavingsAccount "SAVE0001" "ABCDE1234F" (-500) "Main" (7/2)).toRec] }, .ok ()) :=
  C10_no_balance_validation (-500) "SAVE0001" "ABCDE1234F" "Main" (7/2) oneStore
    (by decide) (by decide) (by decide)
